import Mathlib

/-!
Verification of the contact-management client's state-synchronization layer.

The definitions below shallowly embed the JavaScript source:
- the JS string primitives used by the code (trim, toLowerCase, includes,
  truthiness, the or-else idiom) are modelled over the character list of a
  Lean String;
- the Redux slice reducers (contacts slice, auth slice) become pure
  functions on explicit state records;
- the async thunks become functions from a modelled localStorage plus a
  remote outcome to the new storage and a settled result.
-/

namespace ContactApp

/-- ASCII lowercase of one character, as JS toLowerCase acts on these
inputs (only A-Z are mapped; the repository only deals in ASCII fields). -/
def jsCharToLower (c : Char) : Char :=
  if 65 ≤ c.toNat && c.toNat ≤ 90 then Char.ofNat (c.toNat + 32) else c

/-- JS String.prototype.toLowerCase. -/
def jsToLower (s : String) : String :=
  ⟨s.data.map jsCharToLower⟩

/-- Whitespace recognised by JS String.prototype.trim (the characters that
occur in this application's inputs). -/
def isJsWhitespace (c : Char) : Bool :=
  c == ' ' || c == '\t' || c == '\n' || c == '\r'

/-- Drop leading JS whitespace from a character list. -/
def dropLeadingWS : List Char → List Char
  | [] => []
  | c :: cs => if isJsWhitespace c then dropLeadingWS cs else c :: cs

/-- JS String.prototype.trim: strip whitespace from both ends. -/
def jsTrim (s : String) : String :=
  ⟨((dropLeadingWS s.data).reverse |> dropLeadingWS).reverse⟩

/-- Does the first list start with the second? -/
def listStartsWith : List Char → List Char → Bool
  | _, [] => true
  | [], _ :: _ => false
  | a :: as, b :: bs => a == b && listStartsWith as bs

/-- Is the second list a contiguous sublist of the first? -/
def listHasSub : List Char → List Char → Bool
  | [], needle => listStartsWith [] needle
  | hay@(_ :: t), needle => listStartsWith hay needle || listHasSub t needle

/-- JS String.prototype.includes. -/
def strIncludes (hay needle : String) : Bool :=
  listHasSub hay.data needle.data

/-- JS truthiness of an optional string: undefined and the empty string are
falsy; every other string is truthy. -/
def jsTruthy : Option String → Bool
  | none => false
  | some s => s != ""

/-- The JS idiom `a || b` on an optional string (used as `email || ''`). -/
def jsOrElse (a : Option String) (b : String) : String :=
  match a with
  | none => b
  | some s => if s == "" then b else s

/-- The JS idiom `a || b` on two strings (used as `payload || 'fallback'`). -/
def jsOrString (a b : String) : String :=
  if a == "" then b else a

/-- A contact as held in the contacts slice; email and avatar may be absent
on wire objects, the rest always present. -/
structure Contact where
  id : String
  name : String
  phone : String
  email : Option String := none
  avatar : Option String := none
deriving DecidableEq, Repr

instance : Inhabited Contact := ⟨⟨"", "", "", none, none⟩⟩

/-- State of the contacts slice (src/unnamed/part_001): items, request
status, last error. -/
structure ContactsState where
  items : List Contact
  status : String
  error : Option String
deriving DecidableEq, Repr

/-- initialState of the contacts slice. -/
def contactsInitialState : ContactsState :=
  { items := [], status := "idle", error := none }

/-- fetchContacts.fulfilled reducer: status succeeded, items replaced by
the payload. -/
def fetchContactsFulfilled (state : ContactsState) (payload : List Contact) : ContactsState :=
  { state with status := "succeeded", items := payload }

/-- addContact.fulfilled reducer: status succeeded, payload unshifted onto
items. -/
def addContactFulfilled (state : ContactsState) (payload : Contact) : ContactsState :=
  { state with status := "succeeded", items := payload :: state.items }

/-- JS Array.prototype.findIndex: index of the first match, or -1. -/
def jsFindIndex (p : Contact → Bool) : List Contact → Int
  | [] => -1
  | c :: rest =>
    if p c then 0
    else
      let r := jsFindIndex p rest
      if r == -1 then -1 else r + 1

/-- updateContact.fulfilled reducer: find the index of the contact whose id
equals action.meta.arg.id; when found, overwrite that slot with the
payload. -/
def updateContactFulfilled (state : ContactsState) (argId : String) (payload : Contact) :
    ContactsState :=
  let index := jsFindIndex (fun contact => contact.id == argId) state.items
  if index != -1 then
    { state with status := "succeeded", items := state.items.set index.toNat payload }
  else
    { state with status := "succeeded" }

/-- deleteContact.fulfilled reducer: keep the contacts whose id differs
from the payload. -/
def deleteContactFulfilled (state : ContactsState) (payload : String) : ContactsState :=
  { state with
    status := "succeeded",
    items := state.items.filter (fun contact => contact.id != payload) }

/-- The matchesSearch constant inside selectFilteredContacts: with a
truthy normalized search, test inclusion in the lowercased template
string name SP phone SP (email or empty); otherwise true. -/
def matchesSearch (normalizedSearch : String) (contact : Contact) : Bool :=
  if normalizedSearch != "" then
    strIncludes
      (jsToLower (contact.name ++ " " ++ contact.phone ++ " " ++ jsOrElse contact.email ""))
      normalizedSearch
  else true

/-- The matchesFilter constant inside selectFilteredContacts. -/
def matchesFilter (filter : String) (contact : Contact) : Bool :=
  filter == "all" ||
  (filter == "hasEmail" && jsTruthy contact.email) ||
  (filter == "hasPhone" && contact.phone != "")

/-- selectFilteredContacts (src/unnamed/part_001): normalize the search by
trim + toLowerCase, then keep the contacts matching both predicates. -/
def selectFilteredContacts (items : List Contact) (search : String) (filter : String) :
    List Contact :=
  let normalizedSearch := jsToLower (jsTrim search)
  items.filter (fun contact =>
    matchesSearch normalizedSearch contact && matchesFilter filter contact)

/-- The form data held by ContactForm (src/unnamed/part_004). -/
structure ContactFormData where
  name : String
  phone : String
  email : String
  avatar : String
deriving DecidableEq, Repr

/-- The payload ContactForm builds before dispatching addContact. -/
structure AddPayload where
  name : String
  phone : String
  email : String
  avatar : String
deriving DecidableEq, Repr

/-- ContactForm.handleSubmit: trim every field; when the trimmed name or
the trimmed phone is empty, return early (no dispatch); otherwise hand the
payload to onSubmit. -/
def handleSubmit (formData : ContactFormData) : Option AddPayload :=
  let payload : AddPayload :=
    { name := jsTrim formData.name
      phone := jsTrim formData.phone
      email := jsTrim formData.email
      avatar := jsTrim formData.avatar }
  if payload.name == "" || payload.phone == "" then none
  else some payload

/-- The add pipeline seen from the form: handleSubmit gates the dispatch of
the addContact thunk. When it returns early there is no network request
and the slice is untouched; when it dispatches, the thunk issues exactly
one POST and on success the fulfilled reducer unshifts the server's
contact. The Nat counts POST requests issued. -/
def submitAddFlow (state : ContactsState) (formData : ContactFormData)
    (server : AddPayload → Contact) : ContactsState × Nat :=
  match handleSubmit formData with
  | none => (state, 0)
  | some payload => (addContactFulfilled state (server payload), 1)

/-- The authenticated user profile. -/
structure User where
  name : String
  email : String
deriving DecidableEq, Repr

/-- State of the auth slice (src/src/store/authSlice.js). -/
structure AuthState where
  user : Option User
  token : Option String
  isLoggedIn : Bool
  isRefreshing : Bool
  status : String
  error : Option String
deriving DecidableEq, Repr

/-- initialState of the auth slice. -/
def authInitialState : AuthState :=
  { user := none, token := none, isLoggedIn := false, isRefreshing := false,
    status := "idle", error := none }

/-- The durable key-value storage; the token entry is the only key the
application uses. -/
structure LocalStorage where
  token : Option String
deriving DecidableEq, Repr

/-- An axios error as the interceptor and the thunks observe it: the
response status and data.message are absent when no response was received
(network failure); error.message is always present. -/
structure AxiosError where
  status : Option Nat
  dataMessage : Option String
  message : String
deriving DecidableEq, Repr

/-- The response interceptor error handler (src/unnamed/part_006): when the
response status is 401 the token is removed from storage; the error itself
is re-thrown unchanged. The in-memory auth state is threaded through to
record that the interceptor never touches it. -/
def responseInterceptorError (storage : LocalStorage) (auth : AuthState) (e : AxiosError) :
    LocalStorage × AuthState × AxiosError :=
  let storage1 := if e.status == some 401 then { storage with token := none } else storage
  (storage1, auth, e)

/-- The response interceptor success handler: the response passes through. -/
def responseInterceptorSuccess (auth : AuthState) (responseData : List Contact) :
    AuthState × List Contact :=
  (auth, responseData)

/-- Outcome of the remote register call. -/
inductive RegisterOutcome where
  | success (user : User) (token : String)
  | failure (status : Option Nat) (dataMessage : Option String) (errMessage : String)
deriving DecidableEq, Repr

/-- The register thunk (src/unnamed/part_008): on success write the token
to storage and fulfill; on failure build the message with the JS or-chain
and, for status 400 or 409, put the status code and a colon in front, then
reject with that value. Storage is not written on failure. -/
def registerThunk (storage : LocalStorage) (outcome : RegisterOutcome) :
    LocalStorage × Except String (User × String) :=
  match outcome with
  | .success user token => ({ storage with token := some token }, Except.ok (user, token))
  | .failure status dataMessage errMessage =>
    let message := jsOrString (dataMessage.getD "") (jsOrString errMessage "Registration failed")
    let errorMessage :=
      if status == some 400 || status == some 409 then
        toString (status.getD 0) ++ ":" ++ message
      else message
    (storage, Except.error errorMessage)

/-- register.fulfilled reducer. -/
def registerFulfilledCase (st : AuthState) (user : User) (token : String) : AuthState :=
  { st with
    status := "succeeded", user := some user, token := some token,
    isLoggedIn := true, error := none }

/-- register.rejected reducer: status failed, error := payload or the
fallback, session fields cleared. -/
def registerRejectedCase (st : AuthState) (payload : String) : AuthState :=
  { st with
    status := "failed", error := some (jsOrString payload "Registration failed"),
    user := none, token := none, isLoggedIn := false }

/-- Dispatching register end to end: run the thunk, then apply the
matching reducer case to the auth slice. -/
def runRegister (storage : LocalStorage) (st : AuthState) (outcome : RegisterOutcome) :
    LocalStorage × AuthState :=
  match registerThunk storage outcome with
  | (storage1, Except.ok (u, t)) => (storage1, registerFulfilledCase st u t)
  | (storage1, Except.error e) => (storage1, registerRejectedCase st e)

/-- Outcome of the remote logout call. -/
inductive RemoteOutcome where
  | success
  | httpError (status : Nat) (message : String)
  | networkFailure (message : String)
deriving DecidableEq, Repr

/-- The logout thunk (src/unnamed/part_008): the POST is attempted inside
try/catch, a failure is only logged; the finally block removes the token
in every case; the thunk returns null, so it always fulfills. -/
def logoutThunk (storage : LocalStorage) (outcome : RemoteOutcome) :
    LocalStorage × Except String Unit :=
  match outcome with
  | .success => ({ storage with token := none }, Except.ok ())
  | .httpError _ _ => ({ storage with token := none }, Except.ok ())
  | .networkFailure _ => ({ storage with token := none }, Except.ok ())

/-- logout.fulfilled reducer: status idle, session cleared. -/
def logoutFulfilledCase (st : AuthState) : AuthState :=
  { st with status := "idle", user := none, token := none, isLoggedIn := false, error := none }

/-- logout.rejected reducer: identical clearing, kept for faithfulness
although the thunk never rejects. -/
def logoutRejectedCase (st : AuthState) : AuthState :=
  { st with status := "idle", user := none, token := none, isLoggedIn := false, error := none }

/-- Dispatching logout end to end. -/
def runLogout (storage : LocalStorage) (st : AuthState) (outcome : RemoteOutcome) :
    LocalStorage × AuthState :=
  match logoutThunk storage outcome with
  | (storage1, Except.ok _) => (storage1, logoutFulfilledCase st)
  | (storage1, Except.error _) => (storage1, logoutRejectedCase st)

/-- Outcome of the GET /users/current verification call. -/
inductive VerifyOutcome where
  | success (user : User)
  | failure (status : Option Nat) (dataMessage : Option String) (errMessage : String)
deriving DecidableEq, Repr

/-- The refreshUser thunk (src/unnamed/part_008): with no truthy token in
storage, reject with the literal Token not found; otherwise call the
remote; on failure remove the token and reject with the JS or-chain
message. -/
def refreshThunk (storage : LocalStorage) (outcome : VerifyOutcome) :
    LocalStorage × Except String User :=
  if jsTruthy storage.token then
    match outcome with
    | .success user => (storage, Except.ok user)
    | .failure _ dataMessage errMessage =>
      let message := jsOrString (dataMessage.getD "") (jsOrString errMessage "Session expired")
      ({ storage with token := none }, Except.error message)
  else
    (storage, Except.error "Token not found")

/-- refreshUser.fulfilled reducer. -/
def refreshFulfilledCase (st : AuthState) (user : User) : AuthState :=
  { st with
    isRefreshing := false, user := some user, isLoggedIn := true,
    status := "succeeded" }

/-- refreshUser.rejected reducer (src/src/store/authSlice.js): the action
payload is ignored; the error is set to the literal Session expired and
the session fields are cleared. -/
def refreshRejectedCase (st : AuthState) : AuthState :=
  { st with
    isRefreshing := false, user := none, token := none, isLoggedIn := false,
    error := some "Session expired" }

/-- Dispatching refreshUser end to end. -/
def runRefresh (storage : LocalStorage) (st : AuthState) (outcome : VerifyOutcome) :
    LocalStorage × AuthState :=
  match refreshThunk storage outcome with
  | (storage1, Except.ok u) => (storage1, refreshFulfilledCase st u)
  | (storage1, Except.error _) => (storage1, refreshRejectedCase st)

/-- The search predicate exactly as the specification sentence words it:
the trimmed, lowercased search text is a substring (case-insensitively) of
the plain concatenation of name, phone, and email, with the empty string
substituted for an absent email; an empty normalized search matches
everything. Stated for comparison with the selector's own predicate. -/
def claimSearchMatches (search : String) (contact : Contact) : Bool :=
  let ns := jsToLower (jsTrim search)
  ns == "" ||
    strIncludes (jsToLower (contact.name ++ contact.phone ++ contact.email.getD "")) ns

/-- The search predicate as the code realizes it: the concatenation is
space-separated (name, a space, phone, a space, email-or-empty). -/
def spacedSearchMatches (search : String) (contact : Contact) : Bool :=
  let ns := jsToLower (jsTrim search)
  ns == "" ||
    strIncludes
      (jsToLower (contact.name ++ " " ++ contact.phone ++ " " ++ contact.email.getD "")) ns

/-- Spec wording: a contact with a non-empty email. -/
def specHasEmail (contact : Contact) : Bool :=
  contact.email.getD "" != ""

/-- Spec wording: a contact with a non-empty phone. -/
def specHasPhone (contact : Contact) : Bool :=
  contact.phone != ""

/-- Spec wording of the category filter over its three admissible values. -/
def specCategoryPasses (filter : String) (contact : Contact) : Bool :=
  if filter == "all" then true
  else if filter == "hasEmail" then specHasEmail contact
  else if filter == "hasPhone" then specHasPhone contact
  else false

/-- Scenario contact: name Ann, empty email. -/
def annNoEmail : Contact :=
  { id := "a", name := "Ann", phone := "", email := some "" }

/-- Scenario contact: name Anna, email present. -/
def annaWithEmail : Contact :=
  { id := "b", name := "Anna", phone := "", email := some "a@x.com" }

/-- A contact on which plain and space-separated concatenation differ:
the seam ab|cd contains bc only without the separating space. -/
def concatSeam : Contact :=
  { id := "x", name := "ab", phone := "cd", email := none }

/-- Demo collection for the update and delete witnesses. -/
def demoItems : List Contact :=
  [{ id := "1", name := "Ann", phone := "555", email := some "ann@x.com" },
   { id := "2", name := "Bo", phone := "222", email := none }]

/-- Demo contacts state holding demoItems. -/
def demoContactsState : ContactsState :=
  { items := demoItems, status := "idle", error := none }

/-- Server-returned replacement for the update witness. -/
def demoUpdated : Contact :=
  { id := "2", name := "Bob", phone := "333", email := some "bob@x.com" }

/-- Form input with an empty name for the add-rejection witness. -/
def demoEmptyNameForm : ContactFormData :=
  { name := "", phone := "123", email := "", avatar := "" }

/-- A concrete server id-assignment for the add-flow witness. -/
def demoServer (p : AddPayload) : Contact :=
  { id := "9", name := p.name, phone := p.phone, email := some p.email,
    avatar := some p.avatar }

/-- A 401 error instance for the interceptor witness. -/
def demo401 : AxiosError :=
  { status := some 401, dataMessage := some "Unauthorized", message := "Request failed" }

/-- A storage holding a token. -/
def demoStorage : LocalStorage := { token := some "jwt" }

/-- An authenticated auth state for the witnesses. -/
def demoAuth : AuthState :=
  { user := some { name := "Ali", email := "ali@x.com" }, token := some "jwt",
    isLoggedIn := true, isRefreshing := false, status := "succeeded", error := none }

/-- Storage with no persisted token, for the refresh witness. -/
def demoNoTokenStorage : LocalStorage := { token := none }

/-- A failed verification outcome, for the refresh witness. -/
def demoVerifyFail : VerifyOutcome :=
  VerifyOutcome.failure none none "Network Error"

/-- The second demo contact, which survives deleting id 1. -/
def boDemoMember : Contact := { id := "2", name := "Bo", phone := "222", email := none }

/-- The fetched collection of the C5 scenario. -/
def annFetched : Contact := { id := "1", name := "Ann", phone := "555" }

/-- The server-assigned contact of the C5 scenario. -/
def boAssigned : Contact := { id := "2", name := "Bo", phone := "222" }

lemma jsOrElse_empty (a : Option String) : jsOrElse a "" = a.getD "" := by
  cases a with
  | none => rfl
  | some s =>
    by_cases h : s = ""
    · simp [jsOrElse, h]
    · simp [jsOrElse, h]

lemma jsTruthy_getD (a : Option String) : jsTruthy a = (a.getD "" != "") := by
  cases a with
  | none => rfl
  | some s => rfl

lemma matchesSearch_eq_spaced (search : String) (c : Contact) :
    matchesSearch (jsToLower (jsTrim search)) c = spacedSearchMatches search c := by
  unfold matchesSearch spacedSearchMatches
  rw [jsOrElse_empty]
  by_cases h : jsToLower (jsTrim search) = "" <;> simp [h]

lemma filter_idem {α : Type} (p : α → Bool) (l : List α) :
    (l.filter p).filter p = l.filter p := by
  induction l with
  | nil => rfl
  | cons a t ih =>
    by_cases h : p a = true
    · simp [List.filter_cons, h, ih]
    · simp [List.filter_cons, h, ih]

/-- C2 (amended): for each of the three admissible category-filter values,
selectFilteredContacts keeps exactly the contacts that pass both the
search predicate over the space-separated concatenation of name, phone,
and email (empty substituted for absent email; empty or whitespace-only
search matches everything) and the category predicate; and the scenario
search ann with filter hasEmail over [Ann without email, Anna with email]
yields only Anna. -/
theorem selectFilteredContacts_matches_amended_spec :
    (∀ (items : List Contact) (search filter : String),
      filter = "all" ∨ filter = "hasEmail" ∨ filter = "hasPhone" →
      selectFilteredContacts items search filter =
        items.filter (fun c => spacedSearchMatches search c && specCategoryPasses filter c)) ∧
    selectFilteredContacts [annNoEmail, annaWithEmail] "ann" "hasEmail" = [annaWithEmail] := by
  constructor
  · intro items search filter h
    show items.filter
        (fun contact =>
          matchesSearch (jsToLower (jsTrim search)) contact && matchesFilter filter contact) =
      items.filter (fun c => spacedSearchMatches search c && specCategoryPasses filter c)
    apply List.filter_congr
    intro c _
    rw [matchesSearch_eq_spaced]
    rcases h with h | h | h <;> subst h <;>
      simp [matchesFilter, specCategoryPasses, specHasEmail, specHasPhone, jsTruthy_getD]
  · decide

/-- C2 witness: the characterization applied at the scenario input. -/
theorem selectFilteredContacts_matches_amended_spec_inst :
    selectFilteredContacts [annNoEmail, annaWithEmail] "ann" "hasEmail" =
      List.filter (fun c => spacedSearchMatches "ann" c && specCategoryPasses "hasEmail" c)
        [annNoEmail, annaWithEmail] :=
  selectFilteredContacts_matches_amended_spec.1 [annNoEmail, annaWithEmail] "ann" "hasEmail"
    (Or.inr (Or.inl rfl))

/-- C2 counterexample: under the claim's plain-concatenation reading, the
contact named ab with phone cd satisfies both predicates for search bc and
filter all, yet the selector as coded drops it, because the code separates
the fields with spaces. -/
theorem selectFilteredContacts_plain_concat_cex :
    claimSearchMatches "bc" concatSeam = true ∧
    specCategoryPasses "all" concatSeam = true ∧
    concatSeam ∈ [concatSeam] ∧
    selectFilteredContacts [concatSeam] "bc" "all" = [] := by
  refine ⟨by decide, by decide, by decide, by decide⟩

/-- C9: selectFilteredContacts is idempotent: filtering its own output
again with the same query yields the same sequence. -/
theorem selectFilteredContacts_idempotent
    (items : List Contact) (search filter : String) :
    selectFilteredContacts (selectFilteredContacts items search filter) search filter =
      selectFilteredContacts items search filter := by
  show (items.filter _).filter _ = items.filter _
  exact filter_idem _ _

lemma jsTrim_empty_str : jsTrim "" = "" := by decide

/-- C5: fetchContacts.fulfilled replaces the whole collection with the
payload without merging, and a following addContact.fulfilled prepends the
server contact; concretely, fetching Ann with id 1 and then adding the
server-assigned Bo with id 2 yields Bo before Ann. -/
theorem fetch_replaces_add_prepends :
    (∀ (s : ContactsState) (payload : List Contact),
        (fetchContactsFulfilled s payload).items = payload) ∧
    (∀ (s : ContactsState) (payload : List Contact) (c : Contact),
        (addContactFulfilled (fetchContactsFulfilled s payload) c).items = c :: payload) ∧
    (addContactFulfilled
        (fetchContactsFulfilled contactsInitialState [annFetched]) boAssigned).items =
      [boAssigned, annFetched] :=
  ⟨fun _ _ => rfl, fun _ _ _ => rfl, rfl⟩

/-- C6: deleteContact.fulfilled leaves no contact carrying the removed id,
and the surviving contacts are exactly those with a different id, in their
original relative order (the result is a sublist of the input). -/
theorem deleteContact_removes_id_keeps_order (s : ContactsState) (payload : String) :
    (∀ c ∈ (deleteContactFulfilled s payload).items, c.id ≠ payload) ∧
    List.Sublist (deleteContactFulfilled s payload).items s.items ∧
    (∀ c, c ∈ (deleteContactFulfilled s payload).items ↔ c ∈ s.items ∧ c.id ≠ payload) := by
  refine ⟨?_, ?_, ?_⟩
  · intro c hc
    simp only [deleteContactFulfilled] at hc
    rw [List.mem_filter] at hc
    simpa using hc.2
  · show List.Sublist (s.items.filter _) s.items
    exact List.filter_sublist s.items
  · intro c
    simp [deleteContactFulfilled, List.mem_filter]

/-- C6 witness: deleting id 1 from the demo collection keeps Bo, whose id
differs from 1. -/
theorem deleteContact_removes_id_keeps_order_inst :
    boDemoMember ∈ (deleteContactFulfilled demoContactsState "1").items ∧
    boDemoMember.id ≠ "1" :=
  ⟨by decide,
   (deleteContact_removes_id_keeps_order demoContactsState "1").1 boDemoMember (by decide)⟩

/-- C3: whatever the remote outcome of the logout call, the thunk settles
fulfilled, the persisted token is removed from storage, and the auth slice
is reset to anonymous: user and token null, isLoggedIn false, error null. -/
theorem logout_always_resets_session (storage : LocalStorage) (st : AuthState)
    (outcome : RemoteOutcome) :
    (logoutThunk storage outcome).2 = Except.ok () ∧
    (logoutThunk storage outcome).1.token = none ∧
    (runLogout storage st outcome).1.token = none ∧
    (runLogout storage st outcome).2.user = none ∧
    (runLogout storage st outcome).2.token = none ∧
    (runLogout storage st outcome).2.isLoggedIn = false ∧
    (runLogout storage st outcome).2.error = none := by
  cases outcome <;> exact ⟨rfl, rfl, rfl, rfl, rfl, rfl, rfl⟩

/-- C1: when the form's name is empty or its trimmed phone is empty,
the submit path returns before dispatching: no POST is issued and the
contacts slice is left untouched. -/
theorem addContact_empty_input_no_network (state : ContactsState)
    (formData : ContactFormData) (server : AddPayload → Contact)
    (h : formData.name = "" ∨ jsTrim formData.phone = "") :
    submitAddFlow state formData server = (state, 0) := by
  have hnone : handleSubmit formData = none := by
    rcases h with h | h
    · simp [handleSubmit, h, jsTrim_empty_str]
    · simp [handleSubmit, h]
  simp [submitAddFlow, hnone]

/-- C1 witness: the empty-name demo form is rejected locally. -/
theorem addContact_empty_input_no_network_inst :
    (demoEmptyNameForm.name = "" ∨ jsTrim demoEmptyNameForm.phone = "") ∧
    submitAddFlow demoContactsState demoEmptyNameForm demoServer = (demoContactsState, 0) :=
  ⟨Or.inl rfl,
   addContact_empty_input_no_network demoContactsState demoEmptyNameForm demoServer
     (Or.inl rfl)⟩

lemma append_ne_empty (s t : String) (h : s ≠ "") : s ++ t ≠ "" := by
  obtain ⟨l⟩ := s
  obtain ⟨m⟩ := t
  intro he
  apply h
  have hd : l ++ m = ([] : List Char) := congrArg String.data he
  have hl : l = [] := (List.append_eq_nil.mp hd).1
  rw [hl]

lemma jsOrString_of_ne (a b : String) (h : a ≠ "") : jsOrString a b = a := by
  have hb : (a == "") = false := by
    cases hs : a == ""
    · rfl
    · exact absurd (eq_of_beq hs) h
  simp [jsOrString, hb]

/-- C7: the response interceptor re-throws every error unchanged, with
status and message preserved, never touches the in-memory auth state, and
on a 401 response removes the persisted token from storage while leaving
storage alone on every other status. -/
theorem interceptor_401_clears_token_not_session (storage : LocalStorage) (auth : AuthState)
    (e : AxiosError) :
    (responseInterceptorError storage auth e).2.2 = e ∧
    (responseInterceptorError storage auth e).2.1 = auth ∧
    (e.status = some 401 → (responseInterceptorError storage auth e).1.token = none) ∧
    (e.status ≠ some 401 → (responseInterceptorError storage auth e).1 = storage) := by
  refine ⟨rfl, rfl, ?_, ?_⟩
  · intro h
    simp [responseInterceptorError, h]
  · intro h
    have hb : (e.status == some 401) = false := by
      cases hs : e.status == some 401
      · rfl
      · exact absurd (eq_of_beq hs) h
    simp [responseInterceptorError, hb]

/-- C7 witness: a concrete 401 error has its token cleared and is
propagated unchanged with the auth state untouched. -/
theorem interceptor_401_clears_token_not_session_inst :
    demo401.status = some 401 ∧
    (responseInterceptorError demoStorage demoAuth demo401).1.token = none ∧
    (responseInterceptorError demoStorage demoAuth demo401).2.1 = demoAuth ∧
    (responseInterceptorError demoStorage demoAuth demo401).2.2 = demo401 :=
  ⟨rfl,
   (interceptor_401_clears_token_not_session demoStorage demoAuth demo401).2.2.1 rfl,
   (interceptor_401_clears_token_not_session demoStorage demoAuth demo401).2.1,
   (interceptor_401_clears_token_not_session demoStorage demoAuth demo401).1⟩

/-- C8: a register attempt that the remote rejects with status 400 or 409
leaves storage untouched (no credential persisted), leaves the session
anonymous with status failed, and records an error of the form
status-code, colon, message. -/
theorem register_conflict_keeps_anonymous (storage : LocalStorage) (st : AuthState)
    (n : Nat) (dataMessage : Option String) (errMessage : String)
    (h : n = 400 ∨ n = 409) :
    (runRegister storage st (.failure (some n) dataMessage errMessage)).1 = storage ∧
    (runRegister storage st (.failure (some n) dataMessage errMessage)).2.user = none ∧
    (runRegister storage st (.failure (some n) dataMessage errMessage)).2.token = none ∧
    (runRegister storage st (.failure (some n) dataMessage errMessage)).2.isLoggedIn = false ∧
    (runRegister storage st (.failure (some n) dataMessage errMessage)).2.status = "failed" ∧
    ∃ msg, (runRegister storage st (.failure (some n) dataMessage errMessage)).2.error =
      some (toString n ++ ":" ++ msg) := by
  have hmsg : ∀ m : String, jsOrString (toString n ++ ":" ++ m) "Registration failed" =
      toString n ++ ":" ++ m := by
    intro m
    apply jsOrString_of_ne
    apply append_ne_empty
    apply append_ne_empty
    rcases h with h | h <;> subst h <;> decide
  rcases h with h | h <;> subst h <;>
    · refine ⟨?_, ?_, ?_, ?_, ?_,
        ⟨jsOrString (dataMessage.getD "") (jsOrString errMessage "Registration failed"),
         ?_⟩⟩ <;>
      simp [runRegister, registerThunk, registerRejectedCase, hmsg]

/-- C8 witness: a concrete 409 duplicate-account rejection. -/
theorem register_conflict_keeps_anonymous_inst :
    ((409 : Nat) = 400 ∨ (409 : Nat) = 409) ∧
    ((runRegister demoStorage authInitialState
        (.failure (some 409) (some "User already exists") "Request failed")).1 = demoStorage ∧
     (runRegister demoStorage authInitialState
        (.failure (some 409) (some "User already exists") "Request failed")).2.user = none ∧
     (runRegister demoStorage authInitialState
        (.failure (some 409) (some "User already exists") "Request failed")).2.token = none ∧
     (runRegister demoStorage authInitialState
        (.failure (some 409) (some "User already exists") "Request failed")).2.isLoggedIn
       = false ∧
     (runRegister demoStorage authInitialState
        (.failure (some 409) (some "User already exists") "Request failed")).2.status
       = "failed" ∧
     ∃ msg, (runRegister demoStorage authInitialState
        (.failure (some 409) (some "User already exists") "Request failed")).2.error =
       some (toString (409 : Nat) ++ ":" ++ msg)) :=
  ⟨Or.inr rfl,
   register_conflict_keeps_anonymous demoStorage authInitialState 409
     (some "User already exists") "Request failed" (Or.inr rfl)⟩

/-- C10: every rejection of the refresh operation, whether from a missing
persisted token (whose rejection payload is the literal Token not found)
or from a failed verification with any message, ends with lastError set to
the literal Session expired, the payload discarded, and user, token, and
isLoggedIn cleared. -/
theorem refresh_rejected_session_expired (storage : LocalStorage) (st : AuthState)
    (outcome : VerifyOutcome) (payload : String)
    (h : (refreshThunk storage outcome).2 = Except.error payload) :
    (runRefresh storage st outcome).2.error = some "Session expired" ∧
    (runRefresh storage st outcome).2.user = none ∧
    (runRefresh storage st outcome).2.token = none ∧
    (runRefresh storage st outcome).2.isLoggedIn = false ∧
    (storage.token = none → payload = "Token not found") := by
  have hlast : storage.token = none → payload = "Token not found" := by
    intro ht
    have h2 : (refreshThunk storage outcome).2 = Except.error "Token not found" := by
      simp [refreshThunk, ht, jsTruthy]
    rw [h2] at h
    exact (Except.error.inj h).symm
  cases hr : refreshThunk storage outcome with
  | mk storage1 r =>
    cases r with
    | ok u =>
      rw [hr] at h
      simp at h
    | error e =>
      refine ⟨?_, ?_, ?_, ?_, hlast⟩ <;> simp [runRefresh, hr, refreshRejectedCase]

/-- C10 witness: refreshing with no persisted token rejects with the
Token not found payload, yet the recorded error is Session expired. -/
theorem refresh_rejected_session_expired_inst :
    (refreshThunk demoNoTokenStorage demoVerifyFail).2 = Except.error "Token not found" ∧
    (runRefresh demoNoTokenStorage authInitialState demoVerifyFail).2.error =
      some "Session expired" ∧
    (runRefresh demoNoTokenStorage authInitialState demoVerifyFail).2.user = none :=
  ⟨rfl,
   (refresh_rejected_session_expired demoNoTokenStorage authInitialState demoVerifyFail
      "Token not found" rfl).1,
   (refresh_rejected_session_expired demoNoTokenStorage authInitialState demoVerifyFail
      "Token not found" rfl).2.1⟩

lemma jsFindIndex_eq_neg_one (p : Contact → Bool) (l : List Contact)
    (h : ∀ c ∈ l, p c = false) : jsFindIndex p l = -1 := by
  induction l with
  | nil => rfl
  | cons a t ih =>
    have ha : p a = false := h a (List.mem_cons_self a t)
    have ht : jsFindIndex p t = -1 := ih (fun c hc => h c (List.mem_cons_of_mem a hc))
    simp [jsFindIndex, ha, ht]

lemma jsFindIndex_eq_first (p : Contact → Bool) (l : List Contact) :
    ∀ (i : Nat), i < l.length →
      p (l.getD i default) = true →
      (∀ j : Nat, j < l.length → j ≠ i → p (l.getD j default) = false) →
      jsFindIndex p l = (i : Int) := by
  induction l with
  | nil =>
    intro i hi
    simp at hi
  | cons a t ih =>
    intro i hi hp hothers
    cases i with
    | zero =>
      have ha : p a = true := hp
      simp [jsFindIndex, ha]
    | succ k =>
      have ha : p a = false := hothers 0 (by simp) (by omega)
      have hk : jsFindIndex p t = (k : Int) := by
        apply ih k
        · simp only [List.length_cons] at hi
          omega
        · exact hp
        · intro j hj hjk
          exact hothers (j + 1) (by simp only [List.length_cons]; omega) (by omega)
      have hne : (((k : Nat) : Int) == -1) = false := beq_eq_false_iff_ne.mpr (by omega)
      simp only [jsFindIndex, ha, Bool.false_eq_true, if_false, hk, hne]
      omega

lemma getD_set_self {α : Type} (a d : α) (l : List α) :
    ∀ (i : Nat), i < l.length → (l.set i a).getD i d = a := by
  induction l with
  | nil =>
    intro i hi
    simp at hi
  | cons x t ih =>
    intro i hi
    cases i with
    | zero => rfl
    | succ k =>
      apply ih k
      simp only [List.length_cons] at hi
      omega

lemma getD_set_ne {α : Type} (a d : α) (l : List α) :
    ∀ (i j : Nat), j ≠ i → (l.set i a).getD j d = l.getD j d := by
  induction l with
  | nil => intro i j _; rfl
  | cons x t ih =>
    intro i j h
    cases i with
    | zero =>
      cases j with
      | zero => exact absurd rfl h
      | succ m => rfl
    | succ k =>
      cases j with
      | zero => rfl
      | succ m => exact ih k m (fun hm => h (by rw [hm]))

/-- C4: after updateContact.fulfilled with argument id and server payload:
when no element carries that id the collection is unchanged (silent
no-op); when the element at index i carries it, and no other element does,
the collection becomes the original with index i overwritten by the
payload, so the element at i equals the server object and every other
index is untouched. -/
theorem updateContact_replaces_by_id (s : ContactsState) (argId : String) (payload : Contact) :
    ((∀ c ∈ s.items, c.id ≠ argId) →
        (updateContactFulfilled s argId payload).items = s.items) ∧
    (∀ i : Nat, i < s.items.length →
      (s.items.getD i default).id = argId →
      (∀ j : Nat, j < s.items.length → j ≠ i → (s.items.getD j default).id ≠ argId) →
      (updateContactFulfilled s argId payload).items = s.items.set i payload ∧
      (updateContactFulfilled s argId payload).items.getD i default = payload ∧
      ∀ j : Nat, j ≠ i →
        (updateContactFulfilled s argId payload).items.getD j default =
          s.items.getD j default) := by
  constructor
  · intro h
    have hfi : jsFindIndex (fun contact => contact.id == argId) s.items = -1 := by
      apply jsFindIndex_eq_neg_one
      intro c hc
      exact beq_eq_false_iff_ne.mpr (h c hc)
    simp [updateContactFulfilled, hfi]
  · intro i hi hp hothers
    have hfi : jsFindIndex (fun contact => contact.id == argId) s.items = (i : Int) := by
      apply jsFindIndex_eq_first _ _ i hi
      · exact beq_iff_eq.mpr hp
      · intro j hj hji
        exact beq_eq_false_iff_ne.mpr (hothers j hj hji)
    have hne : (((i : Nat) : Int) != -1) = true := bne_iff_ne.mpr (by omega)
    have hitems : (updateContactFulfilled s argId payload).items = s.items.set i payload := by
      simp [updateContactFulfilled, hfi, hne, Int.toNat_natCast]
    refine ⟨hitems, ?_, ?_⟩
    · rw [hitems]
      exact getD_set_self payload default s.items i hi
    · intro j hj
      rw [hitems]
      exact getD_set_ne payload default s.items i j hj

/-- C4 witness: updating id 2 in the demo collection replaces index 1 and
leaves index 0 alone; updating an absent id 9 is a no-op. -/
theorem updateContact_replaces_by_id_inst :
    ((updateContactFulfilled demoContactsState "2" demoUpdated).items =
        demoItems.set 1 demoUpdated ∧
      (updateContactFulfilled demoContactsState "2" demoUpdated).items.getD 1 default =
        demoUpdated) ∧
    (updateContactFulfilled demoContactsState "9" demoUpdated).items = demoItems :=
  ⟨⟨((updateContact_replaces_by_id demoContactsState "2" demoUpdated).2 1 (by decide)
      (by decide) (by decide)).1,
    ((updateContact_replaces_by_id demoContactsState "2" demoUpdated).2 1 (by decide)
      (by decide) (by decide)).2.1⟩,
   (updateContact_replaces_by_id demoContactsState "9" demoUpdated).1 (by decide)⟩

end ContactApp
